import Mathlib

/-!
Shallow embedding of `src/packages/fx-core/src/plugins/resource/bot/azureOps.ts`
(class `AzureOperations`): six remote-operation wrappers and the deployment
status poller.  Remote calls are modelled by their outcome: `Except ε (Option ρ)`,
where `Except.error e` is a raised exception `e`, `Except.ok none` a nullish
response, and `Except.ok (some r)` a response object `r`.  The poller is a
fuel-bounded loop over a stream of poll outcomes; its trace records the result,
the number of backoff sleeps performed and the number of poll calls made.
-/

namespace AzureOps

/-- Modelled from the spec: `utils.isHttpCodeOkOrCreated` lives in
`utils/common.ts`, which is not part of the provided source.  The spec names the
class `OkOrCreated` (HTTP 200 OK or 201 Created, terminal success), disjoint
from `Accepted` (202). -/
def isHttpCodeOkOrCreated (code : Nat) : Bool :=
  code == 200 || code == 201

/-- Modelled from the spec: `utils.isHttpCodeAccepted` lives in
`utils/common.ts`, which is not part of the provided source.  The spec defines
`Accepted` as HTTP 202, the pending status that triggers a poll retry. -/
def isHttpCodeAccepted (code : Nat) : Bool :=
  code == 202

/-- The spec's `HttpStatusClass`: classification of a status code into exactly
one of three classes. -/
inductive HttpStatusClass where
  | okOrCreated
  | accepted
  | other
deriving DecidableEq, Repr

/-- Classification of a status code, computed from the integer code alone via
the two predicates, in the order the poller consults them. -/
def classifyStatus (code : Nat) : HttpStatusClass :=
  if isHttpCodeOkOrCreated code then .okOrCreated
  else if isHttpCodeAccepted code then .accepted
  else .other

/-- Modelled from the spec: `CommonStrings.MS_TEAMS_CHANNEL` comes from the
string catalog (`resources/strings.ts`, not in the provided source); the spec
gives the channel name as "MsTeamsChannel". -/
def MS_TEAMS_CHANNEL : String := "MsTeamsChannel"

/-- Modelled from the spec: `CommonStrings.AZURE_WEB_APP` comes from the string
catalog (not in the provided source); the spec calls the resource the hosting
site. -/
def AZURE_WEB_APP : String := "site"

/-- Modelled from the spec: `ConfigNames.AZURE_WEB_APP_AUTH_CONFIGS` comes from
the string catalog (not in the provided source); the spec calls the config
authConfig. -/
def AZURE_WEB_APP_AUTH_CONFIGS : String := "authConfig"

/-- The failure kinds of `./errors` (not in the provided source); modelled from
the spec's error taxonomy (section 7), with the name argument each carries. -/
inductive ErrorKind where
  | messageEndpointUpdating (endpoint : String)
  | provision (resourceName : String)
  | configUpdating (configName : String)
  | listPublishingCredentials
  | zipDeploy
  | deployStatus
  | deployTimeout
  | restartWebApp
deriving DecidableEq, Repr

/-- A raised provisioning error: a kind plus the optional underlying cause
(the TS error classes take the caught exception as an optional constructor
argument). -/
structure FxError (ε : Type) where
  kind : ErrorKind
  cause : Option ε
deriving DecidableEq, Repr

/-- Outcome of one remote call: raised exception, nullish response, or a
response object. -/
abbrev CallOutcome (ε ρ : Type) := Except ε (Option ρ)

/-- An ARM-client response as the code inspects it: only
`_response.status`. -/
structure AzureResponse where
  status : Nat
deriving DecidableEq, Repr

/-- An axios response as the code inspects it: `status` and
`headers.location`. -/
structure AxiosResponse where
  status : Nat
  locationHeader : String
deriving DecidableEq, Repr

/-- `AzureOperations.UpdateBotChannelRegistration`: raised call →
`MessageEndpointUpdatingError(endpoint, e)`; nullish or non-OkOrCreated
response → `MessageEndpointUpdatingError(endpoint)`. -/
def UpdateBotChannelRegistration {ε : Type} (call : CallOutcome ε AzureResponse)
    (endpoint : String) : Except (FxError ε) Unit :=
  match call with
  | .error e => .error ⟨.messageEndpointUpdating endpoint, some e⟩
  | .ok none => .error ⟨.messageEndpointUpdating endpoint, none⟩
  | .ok (some r) =>
      if isHttpCodeOkOrCreated r.status then .ok ()
      else .error ⟨.messageEndpointUpdating endpoint, none⟩

/-- `AzureOperations.LinkTeamsChannel`: raised call →
`ProvisionError(MS_TEAMS_CHANNEL, e)`; nullish or non-OkOrCreated response →
`ProvisionError(MS_TEAMS_CHANNEL)`. -/
def LinkTeamsChannel {ε : Type} (call : CallOutcome ε AzureResponse) :
    Except (FxError ε) Unit :=
  match call with
  | .error e => .error ⟨.provision MS_TEAMS_CHANNEL, some e⟩
  | .ok none => .error ⟨.provision MS_TEAMS_CHANNEL, none⟩
  | .ok (some r) =>
      if isHttpCodeOkOrCreated r.status then .ok ()
      else .error ⟨.provision MS_TEAMS_CHANNEL, none⟩

/-- `AzureOperations.CreateOrUpdateAzureWebApp`: the `update?: boolean`
parameter is modelled as `Option Bool`; the TS guard `!update` holds exactly
when `update.getD false = false`.  On failure: `ProvisionError(AZURE_WEB_APP)`
when `!update`, else `ConfigUpdatingError(AZURE_WEB_APP_AUTH_CONFIGS)`; the
cause is attached only when the call raised.  On success the response is
returned. -/
def CreateOrUpdateAzureWebApp {ε : Type} (call : CallOutcome ε AzureResponse)
    (update : Option Bool) : Except (FxError ε) AzureResponse :=
  match call with
  | .error e =>
      if update.getD false = false then .error ⟨.provision AZURE_WEB_APP, some e⟩
      else .error ⟨.configUpdating AZURE_WEB_APP_AUTH_CONFIGS, some e⟩
  | .ok none =>
      if update.getD false = false then .error ⟨.provision AZURE_WEB_APP, none⟩
      else .error ⟨.configUpdating AZURE_WEB_APP_AUTH_CONFIGS, none⟩
  | .ok (some r) =>
      if isHttpCodeOkOrCreated r.status then .ok r
      else if update.getD false = false then .error ⟨.provision AZURE_WEB_APP, none⟩
      else .error ⟨.configUpdating AZURE_WEB_APP_AUTH_CONFIGS, none⟩

/-- `AzureOperations.ListPublishingCredentials`: raised call →
`ListPublishingCredentialsError(e)`; nullish or non-OkOrCreated response →
`ListPublishingCredentialsError()`; on success the credentials response is
returned. -/
def ListPublishingCredentials {ε : Type} (call : CallOutcome ε AzureResponse) :
    Except (FxError ε) AzureResponse :=
  match call with
  | .error e => .error ⟨.listPublishingCredentials, some e⟩
  | .ok none => .error ⟨.listPublishingCredentials, none⟩
  | .ok (some r) =>
      if isHttpCodeOkOrCreated r.status then .ok r
      else .error ⟨.listPublishingCredentials, none⟩

/-- `AzureOperations.ZipDeployPackage`: raised post → `ZipDeployError(e)`;
nullish or non-Accepted response → `ZipDeployError()`; on an Accepted (202)
response the `headers.location` string is returned. -/
def ZipDeployPackage {ε : Type} (call : CallOutcome ε AxiosResponse) :
    Except (FxError ε) String :=
  match call with
  | .error e => .error ⟨.zipDeploy, some e⟩
  | .ok none => .error ⟨.zipDeploy, none⟩
  | .ok (some r) =>
      if isHttpCodeAccepted r.status then .ok r.locationHeader
      else .error ⟨.zipDeploy, none⟩

/-- `AzureOperations.RestartWebApp`: raised call → `RestartWebAppError(e)`;
nullish or non-OkOrCreated response → `RestartWebAppError()`. -/
def RestartWebApp {ε : Type} (call : CallOutcome ε AzureResponse) :
    Except (FxError ε) Unit :=
  match call with
  | .error e => .error ⟨.restartWebApp, some e⟩
  | .ok none => .error ⟨.restartWebApp, none⟩
  | .ok (some r) =>
      if isHttpCodeOkOrCreated r.status then .ok ()
      else .error ⟨.restartWebApp, none⟩

/-- Trace of a poller run: its result, the number of `waitSeconds` backoff
sleeps performed, and the number of poll (GET) calls made. -/
structure PollTrace (ε : Type) where
  result : Except (FxError ε) Unit
  sleeps : Nat
  polls : Nat
deriving Repr

/-- Loop body of `AzureOperations.CheckDeployStatus`: `get i` is the outcome of
the GET at loop index `i`, `fuel` the remaining attempts, `s` and `p` the
sleeps and polls performed so far.  Per iteration: a raised GET throws
`DeployStatusError(e)`; a nullish response consumes the attempt silently; an
Accepted (202) status sleeps and continues; an OkOrCreated status returns; any
other status throws `DeployStatusError()`.  Exhausted fuel throws
`DeployTimeoutError()`. -/
def CheckDeployStatusAux {ε : Type} (get : Nat → CallOutcome ε AxiosResponse) :
    Nat → Nat → Nat → Nat → PollTrace ε
  | _, 0, s, p => ⟨.error ⟨.deployTimeout, none⟩, s, p⟩
  | i, fuel + 1, s, p =>
      match get i with
      | .error e => ⟨.error ⟨.deployStatus, some e⟩, s, p + 1⟩
      | .ok none => CheckDeployStatusAux get (i + 1) fuel s (p + 1)
      | .ok (some r) =>
          if isHttpCodeAccepted r.status then
            CheckDeployStatusAux get (i + 1) fuel (s + 1) (p + 1)
          else if isHttpCodeOkOrCreated r.status then ⟨.ok (), s, p + 1⟩
          else ⟨.error ⟨.deployStatus, none⟩, s, p + 1⟩

/-- `AzureOperations.CheckDeployStatus`: the `for (let i = 0; i < RETRY_TIMES;
++i)` loop, with the retry ceiling `retryTimes` (`DeployStatus.RETRY_TIMES`)
supplied as configuration per the spec. -/
def CheckDeployStatus {ε : Type} (get : Nat → CallOutcome ε AxiosResponse)
    (retryTimes : Nat) : PollTrace ε :=
  CheckDeployStatusAux get 0 retryTimes 0 0

/-- A poll outcome that neither returns nor throws: a nullish response or an
Accepted (202) status. -/
def isNonTerminalOutcome {ε : Type} : CallOutcome ε AxiosResponse → Bool
  | .ok none => true
  | .ok (some r) => isHttpCodeAccepted r.status
  | .error _ => false

/-- A poll outcome that triggers a backoff sleep: a response with Accepted
(202) status. -/
def isPendingOutcome {ε : Type} : CallOutcome ε AxiosResponse → Bool
  | .ok (some r) => isHttpCodeAccepted r.status
  | _ => false

/-- Number of sleep-triggering (Accepted) outcomes among the `j` poll outcomes
starting at index `i`. -/
def pendingCountFrom {ε : Type} (get : Nat → CallOutcome ε AxiosResponse) :
    Nat → Nat → Nat
  | _, 0 => 0
  | i, j + 1 =>
      (if isPendingOutcome (get i) then 1 else 0) + pendingCountFrom get (i + 1) j

/-- Uniform failure contract of one operation wrapper `op` with good-status
predicate `good` and designated error kind `kind`: a raised call yields `kind`
with the raised value as cause; a nullish response yields `kind` with no cause;
a response failing `good` yields `kind` with no cause. -/
def OpFailureContract {ε ρ α : Type} (op : CallOutcome ε ρ → Except (FxError ε) α)
    (good : ρ → Bool) (kind : ErrorKind) : Prop :=
  (∀ e : ε, op (.error e) = .error ⟨kind, some e⟩) ∧
  op (.ok none) = .error ⟨kind, none⟩ ∧
  (∀ r : ρ, good r = false → op (.ok (some r)) = .error ⟨kind, none⟩)

lemma update_failure_contract {ε : Type} (endpoint : String) :
    OpFailureContract (fun c => UpdateBotChannelRegistration (ε := ε) c endpoint)
      (fun r => isHttpCodeOkOrCreated r.status)
      (.messageEndpointUpdating endpoint) := by
  refine ⟨fun e => rfl, rfl, fun r h => ?_⟩
  simp [UpdateBotChannelRegistration, h]

lemma link_failure_contract {ε : Type} :
    OpFailureContract (LinkTeamsChannel (ε := ε))
      (fun r => isHttpCodeOkOrCreated r.status)
      (.provision MS_TEAMS_CHANNEL) := by
  refine ⟨fun e => rfl, rfl, fun r h => ?_⟩
  simp [LinkTeamsChannel, h]

lemma createOrUpdate_failure_contract {ε : Type} (update : Option Bool) :
    OpFailureContract (fun c => CreateOrUpdateAzureWebApp (ε := ε) c update)
      (fun r => isHttpCodeOkOrCreated r.status)
      (if update.getD false then .configUpdating AZURE_WEB_APP_AUTH_CONFIGS
       else .provision AZURE_WEB_APP) := by
  refine ⟨fun e => ?_, ?_, fun r h => ?_⟩
  · cases hu : update.getD false <;> simp [CreateOrUpdateAzureWebApp, hu]
  · cases hu : update.getD false <;> simp [CreateOrUpdateAzureWebApp, hu]
  · cases hu : update.getD false <;> simp [CreateOrUpdateAzureWebApp, hu, h]

lemma list_failure_contract {ε : Type} :
    OpFailureContract (ListPublishingCredentials (ε := ε))
      (fun r => isHttpCodeOkOrCreated r.status)
      .listPublishingCredentials := by
  refine ⟨fun e => rfl, rfl, fun r h => ?_⟩
  simp [ListPublishingCredentials, h]

lemma zip_failure_contract {ε : Type} :
    OpFailureContract (ZipDeployPackage (ε := ε))
      (fun r => isHttpCodeAccepted r.status)
      .zipDeploy := by
  refine ⟨fun e => rfl, rfl, fun r h => ?_⟩
  simp [ZipDeployPackage, h]

lemma restart_failure_contract {ε : Type} :
    OpFailureContract (RestartWebApp (ε := ε))
      (fun r => isHttpCodeOkOrCreated r.status)
      .restartWebApp := by
  refine ⟨fun e => rfl, rfl, fun r h => ?_⟩
  simp [RestartWebApp, h]

lemma checkAux_zero {ε : Type} (get : Nat → CallOutcome ε AxiosResponse)
    (i s p : Nat) :
    CheckDeployStatusAux get i 0 s p = ⟨.error ⟨.deployTimeout, none⟩, s, p⟩ := rfl

lemma checkAux_step_error {ε : Type} {get : Nat → CallOutcome ε AxiosResponse}
    {i : Nat} {e : ε} (hg : get i = .error e) (fuel s p : Nat) :
    CheckDeployStatusAux get i (fuel + 1) s p =
      ⟨.error ⟨.deployStatus, some e⟩, s, p + 1⟩ := by
  simp [CheckDeployStatusAux, hg]

lemma checkAux_step_none {ε : Type} {get : Nat → CallOutcome ε AxiosResponse}
    {i : Nat} (hg : get i = .ok none) (fuel s p : Nat) :
    CheckDeployStatusAux get i (fuel + 1) s p =
      CheckDeployStatusAux get (i + 1) fuel s (p + 1) := by
  simp [CheckDeployStatusAux, hg]

lemma checkAux_step_accepted {ε : Type} {get : Nat → CallOutcome ε AxiosResponse}
    {i : Nat} {r : AxiosResponse} (hg : get i = .ok (some r))
    (hr : isHttpCodeAccepted r.status = true) (fuel s p : Nat) :
    CheckDeployStatusAux get i (fuel + 1) s p =
      CheckDeployStatusAux get (i + 1) fuel (s + 1) (p + 1) := by
  simp [CheckDeployStatusAux, hg, hr]

lemma checkAux_step_ok {ε : Type} {get : Nat → CallOutcome ε AxiosResponse}
    {i : Nat} {r : AxiosResponse} (hg : get i = .ok (some r))
    (hr : isHttpCodeAccepted r.status = false)
    (hok : isHttpCodeOkOrCreated r.status = true) (fuel s p : Nat) :
    CheckDeployStatusAux get i (fuel + 1) s p = ⟨.ok (), s, p + 1⟩ := by
  simp [CheckDeployStatusAux, hg, hr, hok]

lemma checkAux_step_other {ε : Type} {get : Nat → CallOutcome ε AxiosResponse}
    {i : Nat} {r : AxiosResponse} (hg : get i = .ok (some r))
    (hr : isHttpCodeAccepted r.status = false)
    (hok : isHttpCodeOkOrCreated r.status = false) (fuel s p : Nat) :
    CheckDeployStatusAux get i (fuel + 1) s p =
      ⟨.error ⟨.deployStatus, none⟩, s, p + 1⟩ := by
  simp [CheckDeployStatusAux, hg, hr, hok]

/-- Skipping a run of non-terminal outcomes: if the `j` outcomes starting at
index `i` are all non-terminal and the budget allows, the loop advances `j`
attempts, sleeping once per Accepted outcome. -/
lemma checkAux_skip {ε : Type} (get : Nat → CallOutcome ε AxiosResponse) :
    ∀ (j i fuel s p : Nat), j ≤ fuel →
      (∀ k, k < j → isNonTerminalOutcome (get (i + k)) = true) →
      CheckDeployStatusAux get i fuel s p =
        CheckDeployStatusAux get (i + j) (fuel - j)
          (s + pendingCountFrom get i j) (p + j) := by
  intro j
  induction j with
  | zero => intro i fuel s p _ _; simp [pendingCountFrom]
  | succ j ih =>
      intro i fuel s p hle hnt
      obtain ⟨fuel', rfl⟩ : ∃ f, fuel = f + 1 :=
        ⟨fuel - 1, by omega⟩
      have h0 : isNonTerminalOutcome (get i) = true := by
        have := hnt 0 (Nat.succ_pos j); simpa using this
      have hrest : ∀ k, k < j → isNonTerminalOutcome (get (i + 1 + k)) = true := by
        intro k hk
        have := hnt (k + 1) (by omega)
        have hidx : i + (k + 1) = i + 1 + k := by omega
        rwa [hidx] at this
      have hij : i + (j + 1) = i + 1 + j := by omega
      have hfj : fuel' + 1 - (j + 1) = fuel' - j := by omega
      cases hg : get i with
      | error e => simp [isNonTerminalOutcome, hg] at h0
      | ok o =>
          cases o with
          | none =>
              rw [checkAux_step_none hg, ih (i + 1) fuel' s (p + 1)
                    (by omega) hrest]
              have hpc : pendingCountFrom get i (j + 1) =
                  pendingCountFrom get (i + 1) j := by
                simp [pendingCountFrom, isPendingOutcome, hg]
              rw [hij, hfj, hpc]
              congr 1
              omega
          | some r =>
              have hr : isHttpCodeAccepted r.status = true := by
                simpa [isNonTerminalOutcome, hg] using h0
              rw [checkAux_step_accepted hg hr, ih (i + 1) fuel' (s + 1) (p + 1)
                    (by omega) hrest]
              have hpc : pendingCountFrom get i (j + 1) =
                  1 + pendingCountFrom get (i + 1) j := by
                simp [pendingCountFrom, isPendingOutcome, hg, hr]
              rw [hij, hfj, hpc]
              congr 1
              · omega
              · omega

/-- The only shapes a poller result can take: normal return, a
`DeployStatusError` (with or without cause), or a causeless
`DeployTimeoutError`. -/
def PollResultShape {ε : Type} (res : Except (FxError ε) Unit) : Prop :=
  res = .ok () ∨ (∃ c : Option ε, res = .error ⟨.deployStatus, c⟩) ∨
    res = .error ⟨.deployTimeout, none⟩

lemma checkAux_bounds {ε : Type} (get : Nat → CallOutcome ε AxiosResponse) :
    ∀ (fuel i s p : Nat),
      (CheckDeployStatusAux get i fuel s p).sleeps ≤ s + fuel ∧
      (CheckDeployStatusAux get i fuel s p).polls ≤ p + fuel ∧
      s ≤ (CheckDeployStatusAux get i fuel s p).sleeps ∧
      PollResultShape (CheckDeployStatusAux get i fuel s p).result := by
  intro fuel
  induction fuel with
  | zero =>
      intro i s p
      refine ⟨by simp [checkAux_zero], by simp [checkAux_zero],
        by simp [checkAux_zero], ?_⟩
      simp [checkAux_zero, PollResultShape]
  | succ fuel ih =>
      intro i s p
      cases hg : get i with
      | error e =>
          rw [checkAux_step_error hg]
          refine ⟨show s ≤ s + (fuel + 1) by omega,
            show p + 1 ≤ p + (fuel + 1) by omega, Nat.le_refl s, ?_⟩
          exact Or.inr (Or.inl ⟨some e, rfl⟩)
      | ok o =>
          cases o with
          | none =>
              rw [checkAux_step_none hg]
              obtain ⟨h1, h2, h3, h4⟩ := ih (i + 1) s (p + 1)
              exact ⟨by omega, by omega, h3, h4⟩
          | some r =>
              by_cases hr : isHttpCodeAccepted r.status = true
              · rw [checkAux_step_accepted hg hr]
                obtain ⟨h1, h2, h3, h4⟩ := ih (i + 1) (s + 1) (p + 1)
                exact ⟨by omega, by omega, by omega, h4⟩
              · have hr' : isHttpCodeAccepted r.status = false := by
                  simpa using hr
                by_cases hok : isHttpCodeOkOrCreated r.status = true
                · rw [checkAux_step_ok hg hr' hok]
                  exact ⟨show s ≤ s + (fuel + 1) by omega,
                    show p + 1 ≤ p + (fuel + 1) by omega, Nat.le_refl s,
                    Or.inl rfl⟩
                · have hok' : isHttpCodeOkOrCreated r.status = false := by
                    simpa using hok
                  rw [checkAux_step_other hg hr' hok']
                  exact ⟨show s ≤ s + (fuel + 1) by omega,
                    show p + 1 ≤ p + (fuel + 1) by omega, Nat.le_refl s,
                    Or.inr (Or.inl ⟨none, rfl⟩)⟩

lemma checkAux_all_none {ε : Type} (get : Nat → CallOutcome ε AxiosResponse) :
    ∀ (fuel i s p : Nat), (∀ k, k < fuel → get (i + k) = .ok none) →
      CheckDeployStatusAux get i fuel s p =
        ⟨.error ⟨.deployTimeout, none⟩, s, p + fuel⟩ := by
  intro fuel
  induction fuel with
  | zero => intro i s p _; simp [checkAux_zero]
  | succ fuel ih =>
      intro i s p hall
      have h0 : get i = .ok none := by
        have := hall 0 (Nat.succ_pos fuel); simpa using this
      rw [checkAux_step_none h0]
      rw [ih (i + 1) s (p + 1) ?_]
      · congr 1
        omega
      · intro k hk
        have := hall (k + 1) (by omega)
        have hidx : i + (k + 1) = i + 1 + k := by omega
        rwa [hidx] at this

/-- C1: for every one of the six operations (update channel registration, link
Teams channel, create-or-update site, list publishing credentials, push
deployment package, restart site) and for every input: a raised collaborator
call yields the operation's designated error kind with the raised value as
cause; a returned-but-absent response or a response whose status is not
OkOrCreated (for push: not Accepted) yields the same designated kind with no
cause. -/
theorem c1_uniform_failure_contract {ε : Type} :
    (∀ endpoint : String,
        OpFailureContract (fun c => UpdateBotChannelRegistration (ε := ε) c endpoint)
          (fun r => isHttpCodeOkOrCreated r.status)
          (.messageEndpointUpdating endpoint)) ∧
    OpFailureContract (LinkTeamsChannel (ε := ε))
      (fun r => isHttpCodeOkOrCreated r.status) (.provision MS_TEAMS_CHANNEL) ∧
    (∀ update : Option Bool,
        OpFailureContract (fun c => CreateOrUpdateAzureWebApp (ε := ε) c update)
          (fun r => isHttpCodeOkOrCreated r.status)
          (if update.getD false then .configUpdating AZURE_WEB_APP_AUTH_CONFIGS
           else .provision AZURE_WEB_APP)) ∧
    OpFailureContract (ListPublishingCredentials (ε := ε))
      (fun r => isHttpCodeOkOrCreated r.status) .listPublishingCredentials ∧
    OpFailureContract (ZipDeployPackage (ε := ε))
      (fun r => isHttpCodeAccepted r.status) .zipDeploy ∧
    OpFailureContract (RestartWebApp (ε := ε))
      (fun r => isHttpCodeOkOrCreated r.status) .restartWebApp :=
  ⟨update_failure_contract, link_failure_contract, createOrUpdate_failure_contract,
    list_failure_contract, zip_failure_contract, restart_failure_contract⟩

/-- Witness for C1: the endpoint-update operation at a concrete 500-status
response raises the designated error with no cause. -/
theorem c1_uniform_failure_contract_witness :
    UpdateBotChannelRegistration (ε := Nat) (.ok (some ⟨500⟩)) "https://bot.example" =
      .error ⟨.messageEndpointUpdating "https://bot.example", none⟩ := by
  obtain ⟨-, -, h3⟩ :=
    (c1_uniform_failure_contract (ε := Nat)).1 "https://bot.example"
  exact h3 ⟨500⟩ (by decide)

/-- C2 counterexample: a push response with status 200 classifies as
OkOrCreated, yet `ZipDeployPackage` raises `ZipDeployError` with no cause
instead of returning the location payload — the claim's OkOrCreated→success
reading is false for the push operation. -/
theorem c2_okOrCreated_push_counterexample :
    classifyStatus 200 = HttpStatusClass.okOrCreated ∧
      ZipDeployPackage (ε := Nat) (.ok (some ⟨200, "loc"⟩)) =
        .error ⟨.zipDeploy, none⟩ :=
  ⟨rfl, rfl⟩

/-- C2 (amended): whenever the push call returns without raising and the
response's status classifies as Accepted (202) — the push operation's
accepting status — the operation succeeds and returns the pending-deployment
location string rather than raising ZipDeploy. -/
theorem c2_accepted_push_success {ε : Type} :
    ∀ r : AxiosResponse, isHttpCodeAccepted r.status = true →
      ZipDeployPackage (ε := ε) (.ok (some r)) = .ok r.locationHeader := by
  intro r h
  simp [ZipDeployPackage, h]

/-- Witness for C2 (amended): a concrete 202 response returns its
location. -/
theorem c2_accepted_push_success_witness :
    ZipDeployPackage (ε := Nat) (.ok (some ⟨202, "loc"⟩)) = .ok "loc" :=
  c2_accepted_push_success ⟨202, "loc"⟩ (by decide)

/-- C3: for the create-or-update site operation, every failing outcome (raised
call, absent response, or non-OkOrCreated status) raises the kind determined
solely by the `update` flag — falsy flag → `ProvisionError(AZURE_WEB_APP)`,
truthy flag → `ConfigUpdatingError(AZURE_WEB_APP_AUTH_CONFIGS)` — never by the
response content; the cause is attached exactly when the call raised. -/
theorem c3_createOrUpdate_flag_determines_kind {ε : Type} :
    ∀ update : Option Bool,
      OpFailureContract (fun c => CreateOrUpdateAzureWebApp (ε := ε) c update)
        (fun r => isHttpCodeOkOrCreated r.status)
        (if update.getD false then .configUpdating AZURE_WEB_APP_AUTH_CONFIGS
         else .provision AZURE_WEB_APP) :=
  createOrUpdate_failure_contract

/-- Witness for C3: with `update = some true`, a raised call yields
`ConfigUpdatingError` carrying the cause. -/
theorem c3_createOrUpdate_flag_determines_kind_witness :
    CreateOrUpdateAzureWebApp (ε := Nat) (.error 3) (some true) =
      .error ⟨.configUpdating AZURE_WEB_APP_AUTH_CONFIGS, some 3⟩ := by
  obtain ⟨h1, -, -⟩ := c3_createOrUpdate_flag_determines_kind (ε := Nat) (some true)
  exact h1 3

/-- C4: if the poll GET at attempt `j` (within the retry budget, all earlier
attempts non-terminal) raises a transport exception `e`, the poller
immediately raises `DeployStatusError` with `e` as cause, having performed
exactly `j + 1` polls and only the sleeps its earlier Accepted responses
triggered — a transport error is never retried and never becomes a
timeout. -/
theorem c4_transport_error_fails_immediately {ε : Type}
    (get : Nat → CallOutcome ε AxiosResponse) (n j : Nat) (e : ε)
    (hj : j < n)
    (hpre : ∀ k, k < j → isNonTerminalOutcome (get k) = true)
    (he : get j = .error e) :
    CheckDeployStatus get n =
      ⟨.error ⟨.deployStatus, some e⟩, pendingCountFrom get 0 j, j + 1⟩ := by
  have hskip := checkAux_skip get j 0 n 0 0 (by omega)
    (by intro k hk; simpa using hpre k hk)
  rw [CheckDeployStatus, hskip]
  obtain ⟨m, hm⟩ : ∃ m, n - j = m + 1 := ⟨n - j - 1, by omega⟩
  rw [hm]
  have he0 : get (0 + j) = Except.error e := by simpa using he
  rw [checkAux_step_error he0]
  simp

/-- Witness for C4: a transport exception on the very first poll yields
`DeployStatusError` with cause, zero sleeps, one poll. -/
theorem c4_transport_error_fails_immediately_witness :
    CheckDeployStatus (fun _ => Except.error (7 : Nat)) 3 =
      ⟨.error ⟨.deployStatus, some 7⟩, 0, 1⟩ :=
  c4_transport_error_fails_immediately (fun _ => Except.error (7 : Nat)) 3 0 7
    (by omega) (fun k hk => absurd hk (Nat.not_lt_zero k)) rfl

/-- C5: with `maxAttempts ≥ 3` and poll statuses `[202, 202, 200]`, the poller
returns normally (Succeeded) with exactly two backoff sleeps, and no poll
after the 200 response: exactly three polls. -/
theorem c5_two_pending_then_success {ε : Type}
    (get : Nat → CallOutcome ε AxiosResponse) (n : Nat)
    (r0 r1 r2 : AxiosResponse) (hn : 3 ≤ n)
    (h0 : get 0 = .ok (some r0)) (hs0 : r0.status = 202)
    (h1 : get 1 = .ok (some r1)) (hs1 : r1.status = 202)
    (h2 : get 2 = .ok (some r2)) (hs2 : r2.status = 200) :
    CheckDeployStatus get n = ⟨.ok (), 2, 3⟩ := by
  have hskip := checkAux_skip get 2 0 n 0 0 (by omega) ?_
  · rw [CheckDeployStatus, hskip]
    have hpc : pendingCountFrom get 0 2 = 2 := by
      have e0 : pendingCountFrom get 0 2 =
          (if isPendingOutcome (get 0) then 1 else 0) +
            ((if isPendingOutcome (get 1) then 1 else 0) + 0) := rfl
      rw [e0, h0, h1]
      simp [isPendingOutcome, isHttpCodeAccepted, hs0, hs1]
    rw [hpc]
    obtain ⟨m, hm⟩ : ∃ m, n - 2 = m + 1 := ⟨n - 3, by omega⟩
    rw [hm]
    have h2' : get (0 + 2) = Except.ok (some r2) := by simpa using h2
    rw [checkAux_step_ok h2' (by simp [isHttpCodeAccepted, hs2])
      (by simp [isHttpCodeOkOrCreated, hs2])]
  · intro k hk
    interval_cases k
    · simp [isNonTerminalOutcome, h0, isHttpCodeAccepted, hs0]
    · simp [isNonTerminalOutcome, h1, isHttpCodeAccepted, hs1]

/-- Witness for C5: concrete `[202, 202, 200]` stream with budget 5. -/
theorem c5_two_pending_then_success_witness :
    CheckDeployStatus (ε := Nat)
      (fun i => if i = 0 then .ok (some ⟨202, "a"⟩)
        else if i = 1 then .ok (some ⟨202, "b"⟩)
        else .ok (some ⟨200, "c"⟩)) 5 = ⟨.ok (), 2, 3⟩ :=
  c5_two_pending_then_success _ 5 ⟨202, "a"⟩ ⟨202, "b"⟩ ⟨200, "c"⟩
    (by omega) rfl rfl rfl rfl rfl rfl

/-- C6: with `maxAttempts = 3` and poll statuses `[202, 202, 202]`, the retry
budget is exhausted: the poller raises `DeployTimeoutError` after exactly
three sleeps and three polls, with no success or DeployStatus
short-circuit. -/
theorem c6_all_pending_times_out {ε : Type}
    (get : Nat → CallOutcome ε AxiosResponse)
    (r0 r1 r2 : AxiosResponse)
    (h0 : get 0 = .ok (some r0)) (hs0 : r0.status = 202)
    (h1 : get 1 = .ok (some r1)) (hs1 : r1.status = 202)
    (h2 : get 2 = .ok (some r2)) (hs2 : r2.status = 202) :
    CheckDeployStatus get 3 = ⟨.error ⟨.deployTimeout, none⟩, 3, 3⟩ := by
  have hskip := checkAux_skip get 3 0 3 0 0 (Nat.le_refl 3) ?_
  · rw [CheckDeployStatus, hskip]
    have hpc : pendingCountFrom get 0 3 = 3 := by
      have e0 : pendingCountFrom get 0 3 =
          (if isPendingOutcome (get 0) then 1 else 0) +
            ((if isPendingOutcome (get 1) then 1 else 0) +
              ((if isPendingOutcome (get 2) then 1 else 0) + 0)) := rfl
      rw [e0, h0, h1, h2]
      simp [isPendingOutcome, isHttpCodeAccepted, hs0, hs1, hs2]
    rw [hpc, Nat.sub_self, checkAux_zero]
  · intro k hk
    interval_cases k
    · simp [isNonTerminalOutcome, h0, isHttpCodeAccepted, hs0]
    · simp [isNonTerminalOutcome, h1, isHttpCodeAccepted, hs1]
    · simp [isNonTerminalOutcome, h2, isHttpCodeAccepted, hs2]

/-- Witness for C6: concrete all-202 stream with budget 3. -/
theorem c6_all_pending_times_out_witness :
    CheckDeployStatus (ε := Nat) (fun _ => .ok (some ⟨202, "a"⟩)) 3 =
      ⟨.error ⟨.deployTimeout, none⟩, 3, 3⟩ :=
  c6_all_pending_times_out _ ⟨202, "a"⟩ ⟨202, "a"⟩ ⟨202, "a"⟩
    rfl rfl rfl rfl rfl rfl

/-- C7: with any `maxAttempts ≥ 2` and poll statuses `[202, 500]`, the poller
raises `DeployStatusError` with no cause at the second attempt: exactly one
sleep, exactly two polls, and no further polling — a non-Accepted,
non-OkOrCreated status fails fast without waiting out the remaining
budget. -/
theorem c7_bad_status_fails_fast {ε : Type}
    (get : Nat → CallOutcome ε AxiosResponse) (n : Nat)
    (r0 r1 : AxiosResponse) (hn : 2 ≤ n)
    (h0 : get 0 = .ok (some r0)) (hs0 : r0.status = 202)
    (h1 : get 1 = .ok (some r1)) (hs1 : r1.status = 500) :
    CheckDeployStatus get n = ⟨.error ⟨.deployStatus, none⟩, 1, 2⟩ := by
  have hskip := checkAux_skip get 1 0 n 0 0 (by omega) ?_
  · rw [CheckDeployStatus, hskip]
    have hpc : pendingCountFrom get 0 1 = 1 := by
      have e0 : pendingCountFrom get 0 1 =
          (if isPendingOutcome (get 0) then 1 else 0) + 0 := rfl
      rw [e0, h0]
      simp [isPendingOutcome, isHttpCodeAccepted, hs0]
    rw [hpc]
    obtain ⟨m, hm⟩ : ∃ m, n - 1 = m + 1 := ⟨n - 2, by omega⟩
    rw [hm]
    have h1' : get (0 + 1) = Except.ok (some r1) := by simpa using h1
    rw [checkAux_step_other h1' (by simp [isHttpCodeAccepted, hs1])
      (by simp [isHttpCodeOkOrCreated, hs1])]
  · intro k hk
    interval_cases k
    simp [isNonTerminalOutcome, h0, isHttpCodeAccepted, hs0]

/-- Witness for C7: concrete `[202, 500]` stream with budget 4. -/
theorem c7_bad_status_fails_fast_witness :
    CheckDeployStatus (ε := Nat)
      (fun i => if i = 0 then .ok (some ⟨202, "a"⟩) else .ok (some ⟨500, "b"⟩))
      4 = ⟨.error ⟨.deployStatus, none⟩, 1, 2⟩ :=
  c7_bad_status_fails_fast _ 4 ⟨202, "a"⟩ ⟨500, "b"⟩ (by omega) rfl rfl rfl rfl

/-- C8: for every poll-outcome stream and every `maxAttempts ≥ 1` the poller
terminates with at most `maxAttempts` polls and at most `maxAttempts` sleeps,
its result is exactly one of normal return, `DeployStatusError`, or
`DeployTimeoutError`, and total sleep time is bounded by
`maxAttempts × backoffSeconds`. -/
theorem c8_poller_bounded_termination {ε : Type}
    (get : Nat → CallOutcome ε AxiosResponse) (n b : Nat) (hn : 1 ≤ n) :
    (CheckDeployStatus get n).polls ≤ n ∧
    (CheckDeployStatus get n).sleeps ≤ n ∧
    PollResultShape (CheckDeployStatus get n).result ∧
    (CheckDeployStatus get n).sleeps * b ≤ n * b := by
  obtain ⟨hs, hp, -, hshape⟩ := checkAux_bounds get n 0 0 0
  refine ⟨by simpa using hp, by simpa using hs, hshape, ?_⟩
  exact Nat.mul_le_mul_right b (by simpa using hs)

/-- Witness for C8: bounds at a concrete all-nullish stream, budget 1,
backoff 5. -/
theorem c8_poller_bounded_termination_witness :
    (CheckDeployStatus (ε := Nat) (fun _ => Except.ok none) 1).polls ≤ 1 ∧
    (CheckDeployStatus (ε := Nat) (fun _ => Except.ok none) 1).sleeps ≤ 1 ∧
    PollResultShape (CheckDeployStatus (ε := Nat) (fun _ => Except.ok none) 1).result ∧
    (CheckDeployStatus (ε := Nat) (fun _ => Except.ok none) 1).sleeps * 5 ≤ 1 * 5 :=
  c8_poller_bounded_termination (fun _ => Except.ok none) 1 5 (by omega)

/-- C9: status classification is a pure function of the integer code:
classifying twice agrees, the OkOrCreated and Accepted predicates are never
both true, and each code lands in exactly one `HttpStatusClass`, characterised
by the two predicates. -/
theorem c9_classification_pure_and_exclusive :
    ∀ code : Nat,
      classifyStatus code = classifyStatus code ∧
      (isHttpCodeOkOrCreated code && isHttpCodeAccepted code) = false ∧
      (classifyStatus code = .okOrCreated ↔ isHttpCodeOkOrCreated code = true) ∧
      (classifyStatus code = .accepted ↔ isHttpCodeAccepted code = true) ∧
      (classifyStatus code = .other ↔
        (isHttpCodeOkOrCreated code = false ∧ isHttpCodeAccepted code = false)) := by
  intro code
  by_cases h1 : isHttpCodeOkOrCreated code = true
  · have h2 : isHttpCodeAccepted code = false := by
      have : code = 200 ∨ code = 201 := by
        simpa [isHttpCodeOkOrCreated] using h1
      rcases this with h | h <;> simp [isHttpCodeAccepted, h]
    refine ⟨rfl, by simp [h1, h2], ?_, ?_, ?_⟩ <;> simp [classifyStatus, h1, h2]
  · have h1' : isHttpCodeOkOrCreated code = false := by simpa using h1
    by_cases h2 : isHttpCodeAccepted code = true
    · refine ⟨rfl, by simp [h1', h2], ?_, ?_, ?_⟩ <;>
        simp [classifyStatus, h1', h2]
    · have h2' : isHttpCodeAccepted code = false := by simpa using h2
      refine ⟨rfl, by simp [h1', h2'], ?_, ?_, ?_⟩ <;>
        simp [classifyStatus, h1', h2']

/-- Witness for C9: code 202 classifies as Accepted. -/
theorem c9_classification_pure_and_exclusive_witness :
    classifyStatus 202 = HttpStatusClass.accepted :=
  (c9_classification_pure_and_exclusive 202).2.2.2.1.mpr (by decide)

/-- C10: a nullish poll response consumes its attempt with no sleep and no
`DeployStatusError` — the loop just proceeds — and if all `maxAttempts` polls
return nullish responses the poller raises `DeployTimeoutError` having
performed zero sleeps and `maxAttempts` polls. -/
theorem c10_nullish_response_degrades_to_timeout {ε : Type} :
    (∀ (get : Nat → CallOutcome ε AxiosResponse) (i fuel s p : Nat),
        get i = .ok none →
        CheckDeployStatusAux get i (fuel + 1) s p =
          CheckDeployStatusAux get (i + 1) fuel s (p + 1)) ∧
    (∀ (get : Nat → CallOutcome ε AxiosResponse) (n : Nat),
        (∀ k, k < n → get k = .ok none) →
        CheckDeployStatus get n = ⟨.error ⟨.deployTimeout, none⟩, 0, n⟩) := by
  constructor
  · intro get i fuel s p hg
    exact checkAux_step_none hg fuel s p
  · intro get n hall
    rw [CheckDeployStatus,
      checkAux_all_none get n 0 0 0 (by intro k hk; simpa using hall k hk)]
    simp

/-- Witness for C10: two nullish polls with budget 2 time out with zero
sleeps. -/
theorem c10_nullish_response_degrades_to_timeout_witness :
    CheckDeployStatus (ε := Nat) (fun _ => Except.ok none) 2 =
      ⟨.error ⟨.deployTimeout, none⟩, 0, 2⟩ :=
  (c10_nullish_response_degrades_to_timeout (ε := Nat)).2
    (fun _ => Except.ok none) 2 (fun _ _ => rfl)

end AzureOps
